import Mathlib

/-!
# Verification of the crypto-strategy-hub API (src/index.js)

A shallow embedding of the Express application in `src/index.js`: an in-memory
list of portfolio records mirrored to a JSON file, plus a prediction proxy.

Modelling conventions:

* JSON values are the inductive `JValue`; a JSON object is an association list
  `JObj := List (String × JValue)` with unique keys (as produced by
  `JSON.parse` / object literals), looked up first-match.
* `express.json()` in strict mode only accepts objects and arrays as request
  bodies; portfolio records and request bodies are modelled as `JObj`.
* The in-memory `portfolios` array is a `List JObj`; each route handler becomes
  a function from the current list (plus the request data) to the new list and
  the HTTP response.  File-write success of `savePortfolios` is a `Bool`
  parameter (`fs.writeFile` resolving or rejecting); the handlers mutate the
  list before awaiting the write, exactly as the JS does.
* `JSON.parse` of the persisted file is modelled as `Option JValue`
  (`none` = the file is missing or its content is unparseable, i.e. `readFile`
  or `JSON.parse` threw).
* Outbound HTTP services are parameters: the Flask prediction service is a
  function from the posted payload to `Except String JValue`, the market-data
  response is an `Except String JValue`.
-/

namespace CryptoHub

/-- JSON values (the data manipulated by the API).  Numbers are modelled as
integers; nothing in the verified routes inspects numeric values beyond
truthiness and equality. -/
inductive JValue where
  | null
  | bool (b : Bool)
  | num (n : Int)
  | str (s : String)
  | arr (elems : List JValue)
  | obj (fields : List (String × JValue))

/-- A JSON object: an association list of fields, unique keys, first-match
lookup. -/
abbrev JObj := List (String × JValue)

/-- JavaScript property read `o.k` on a plain object: the value stored under
`k`, or `undefined` (here `none`) when the key is absent. -/
def lookupField (o : JObj) (k : String) : Option JValue :=
  (o.find? (fun kv => kv.1 == k)).map (fun kv => kv.2)

/-- JavaScript truthiness of a JSON value: `null`, `false`, `0` and `""` are
falsy; every array and object (even empty) is truthy. -/
def jTruthy : JValue → Bool
  | JValue.null => false
  | JValue.bool b => b
  | JValue.num n => n != 0
  | JValue.str s => s != ""
  | JValue.arr _ => true
  | JValue.obj _ => true

/-- The predicate `p => p.id === req.params.id` used by the `find`/`findIndex`
calls (src/index.js lines 59, 155, 179, 203): strict equality of the record's
`id` field with the route-parameter string, so it holds exactly when the field
is a string with the same content. -/
def matchesId (id : String) (p : JObj) : Bool :=
  match lookupField p "id" with
  | some (JValue.str s) => s == id
  | _ => false

/-- An HTTP response: status code and JSON body. -/
structure Resp where
  status : Nat
  body : JValue

/-- The one-line error bodies `{ error: msg }` sent by the handlers. -/
def errBody (msg : String) : JValue :=
  JValue.obj [("error", JValue.str msg)]

/-- The lookup `portfolios.find(p => p.id === id)` underlying
`GET /portfolios/:id` (src/index.js line 59). -/
def getById (ps : List JObj) (id : String) : Option JObj :=
  ps.find? (matchesId id)

/-- Route `GET /portfolios/:id` (src/index.js lines 58-65): 200 with the record, or
404 `{error}` when no record's `id` matches. -/
def getPortfolioById (ps : List JObj) (id : String) : Resp :=
  match getById ps id with
  | some p => ⟨200, JValue.obj p⟩
  | none => ⟨404, errBody "Portfolio not found"⟩

/-- The push `portfolios.push(newPortfolio)` (src/index.js line 72). -/
def insertPortfolio (ps : List JObj) (p : JObj) : List JObj :=
  ps ++ [p]

/-- Route `POST /portfolios` (src/index.js lines 68-81): push the body onto the
in-memory array, then persist; 201 with the body on success, 500 `{error}` if
the write rejects.  The push happens before the write either way — there is no
rollback. -/
def postPortfolios (ps : List JObj) (body : JObj) (writeOk : Bool) :
    List JObj × Resp :=
  let ps' := insertPortfolio ps body
  (ps', if writeOk then ⟨201, JValue.obj body⟩
        else ⟨500, errBody "Failed to save new portfolio"⟩)

/-- Route `DELETE /portfolios/:id` (src/index.js lines 153-171): `findIndex`, 404 if
`-1`, otherwise `splice(index, 1)` (= erase that position) and persist. -/
def deletePortfolio (ps : List JObj) (id : String) (writeOk : Bool) :
    List JObj × Resp :=
  match ps.findIdx? (matchesId id) with
  | none => (ps, ⟨404, errBody "Portfolio not found"⟩)
  | some i =>
    let ps' := ps.eraseIdx i
    (ps', if writeOk then
            ⟨200, JValue.obj [("message", JValue.str "Portfolio deleted successfully")]⟩
          else ⟨500, errBody "Failed to delete portfolio"⟩)

/-- The object spread `{ ...old, ...body }` (src/index.js line 186): keys of
`old` keep their position, taking `body`'s value when `body` also has the key;
keys only in `body` are appended in `body`'s order. -/
def mergeObj (old body : JObj) : JObj :=
  old.map (fun kv => (kv.1, (lookupField body kv.1).getD kv.2)) ++
    body.filter (fun kv => (lookupField old kv.1).isNone)

/-- Route `PUT /portfolios/:id` (src/index.js lines 174-195): `findIndex`, 404 if
absent, otherwise replace the record by `{ ...record, ...body }`, persist, and
answer 200 `{message, portfolio}` or 500 `{error}`. -/
def putPortfolio (ps : List JObj) (id : String) (body : JObj) (writeOk : Bool) :
    List JObj × Resp :=
  match ps.findIdx? (matchesId id) with
  | none => (ps, ⟨404, errBody "Portfolio not found"⟩)
  | some i =>
    let merged := mergeObj (ps.getD i []) body
    let ps' := ps.set i merged
    (ps', if writeOk then
            ⟨200, JValue.obj [("message", JValue.str "Portfolio updated successfully"),
                              ("portfolio", JValue.obj merged)]⟩
          else ⟨500, errBody "Failed to update portfolio"⟩)

/-- Pointwise replacement of the value stored under `k`
(`o.map (fun kv => if kv.1 == k then (k, v) else kv)`, written recursively). -/
def replaceVal : JObj → String → JValue → JObj
  | [], _, _ => []
  | kv :: o, k, v => (if kv.1 == k then (k, v) else kv) :: replaceVal o k v

/-- JavaScript assignment `o.k = v`: replace the value at an existing key `k`
in place, or append the key when absent. -/
def setField (o : JObj) (k : String) (v : JValue) : JObj :=
  if o.any (fun kv => kv.1 == k) then replaceVal o k v
  else o ++ [(k, v)]

/-- One `if (x) { record.k = x; }` step of the PATCH handler: the field is
assigned only when the destructured value is present *and* truthy. -/
def applyIfTruthy (o : JObj) (k : String) (v? : Option JValue) : JObj :=
  match v? with
  | some v => if jTruthy v then setField o k v else o
  | none => o

/-- Route `PATCH /portfolios/:id` (src/index.js lines 198-231): destructure
`analysis`, `coins`, `values` from the body, `findIndex`, 404 if absent,
otherwise assign each of the three fields that is present and truthy, persist,
and answer 200 `{message, portfolio}` or 500 `{error}`. -/
def patchPortfolio (ps : List JObj) (id : String) (body : JObj) (writeOk : Bool) :
    List JObj × Resp :=
  let analysis := lookupField body "analysis"
  let coins := lookupField body "coins"
  let values := lookupField body "values"
  match ps.findIdx? (matchesId id) with
  | none => (ps, ⟨404, errBody "Portfolio not found"⟩)
  | some i =>
    let r1 := applyIfTruthy (ps.getD i []) "analysis" analysis
    let r2 := applyIfTruthy r1 "coins" coins
    let r3 := applyIfTruthy r2 "values" values
    let ps' := ps.set i r3
    (ps', if writeOk then
            ⟨200, JValue.obj [("message", JValue.str "Portfolio updated successfully"),
                              ("portfolio", JValue.obj r3)]⟩
          else ⟨500, errBody "Failed to update portfolio"⟩)

/-- The function `savePortfolios` (src/index.js lines 35-42) writes the JSON document
`{ "portfolios": [ ... ] }` (pretty-printed by `JSON.stringify(_, null, 2)`;
the document tree is what matters here — `JSON.parse` inverts the printing of
any such tree). -/
def savePortfoliosDoc (ps : List JObj) : JValue :=
  JValue.obj [("portfolios", JValue.arr (ps.map JValue.obj))]

/-- The function `loadPortfolios` (src/index.js lines 25-32), i.e. the effect of
`portfolios = JSON.parse(data).portfolios || []` with errors caught:
`none` (missing file or parse failure) and a parsed `null` (property access
throws) leave `portfolios` at its previous value `prev`; otherwise a missing,
falsy or absent `portfolios` key yields `[]`, and a truthy value is taken
as-is. -/
def loadResult (file : Option JValue) (prev : JValue) : JValue :=
  match file with
  | none => prev
  | some JValue.null => prev
  | some (JValue.obj fs) =>
    match lookupField fs "portfolios" with
    | some v => if jTruthy v then v else JValue.arr []
    | none => JValue.arr []
  | some _ => JValue.arr []

/-- The startup load (src/index.js lines 22 and 45): `portfolios` starts as
`[]` and `loadPortfolios()` runs once. -/
def loadPortfoliosStartup (file : Option JValue) : JValue :=
  loadResult file (JValue.arr [])

/-- Route `POST /api/predictions/:coinId` (src/index.js lines 126-150): 400
`{error}` when the body's `historical_data` is missing or not an array (the
guard `!historical_data || !Array.isArray(historical_data)`; an array is
always truthy, so the test is exactly "not an array"); otherwise the array is
posted to the Flask service.  On success the handler evaluates
`flaskResponse.data.slice(0, 5)` for logging before responding, so a body that
is neither an array nor a string throws a TypeError into the same catch; the
catch answers 500 `{error}`, as it does when the service call rejects.
The response handling of the `try` block (from the `axios.post` result on) is
`flaskRespond`; the route handler itself is `postPredictions`. -/
def flaskRespond (r : Except String JValue) : Resp :=
  match r with
  | Except.error _ => ⟨500, errBody "Failed to fetch predictions from Flask"⟩
  | Except.ok d =>
    match d with
    | JValue.arr _ => ⟨200, d⟩
    | JValue.str _ => ⟨200, d⟩
    | _ => ⟨500, errBody "Failed to fetch predictions from Flask"⟩

/-- The whole `POST /api/predictions/:coinId` handler: validate the body,
then run the service call and `flaskRespond`. -/
def postPredictions (body : JObj) (svc : JValue → Except String JValue) : Resp :=
  match lookupField body "historical_data" with
  | some (JValue.arr xs) => flaskRespond (svc (JValue.arr xs))
  | _ => ⟨400, errBody "Invalid or missing historical_data"⟩

/-- JavaScript property read on an arbitrary value: `undefined` (`none`)
unless the value is an object holding the key.  (Reading a property of `null`
throws, but in `fetchHistoricalData` every failed step of
`response.data.Data.Data.map` ends in the same thrown-and-rethrown error, so
`none` adequately stands for all of them.) -/
def getProp (v : JValue) (k : String) : Option JValue :=
  match v with
  | JValue.obj fs => lookupField fs k
  | _ => none

/-- Civil (proleptic Gregorian) date of a day count relative to 1970-01-01,
the conversion performed by `Date.prototype.toISOString` (UTC).  Standard
era/year-of-era/day-of-year arithmetic; all intermediate values after the era
split are non-negative, so truncating division agrees with floor there. -/
def civilFromDays (z0 : Int) : Int × Int × Int :=
  let z := z0 + 719468
  let era := Int.fdiv z 146097
  let doe := z - era * 146097
  let yoe := (doe - doe / 1460 + doe / 36524 - doe / 146096) / 365
  let y := yoe + era * 400
  let doy := doe - (365 * yoe + yoe / 4 - yoe / 100)
  let mp := (5 * doy + 2) / 153
  let d := doy - (153 * mp + 2) / 5 + 1
  let m := mp + (if mp < 10 then 3 else -9)
  (y + (if m ≤ 2 then 1 else 0), m, d)

/-- Left-pad a number with zeros to `w` digits. -/
def padNum (w : Nat) (n : Nat) : String :=
  let s := toString n
  String.mk (List.replicate (w - s.length) '0') ++ s

/-- The year field of `toISOString`: four digits for years 0-9999, otherwise
the ECMAScript expanded form (`+`/`-` and six digits). -/
def yearString (y : Int) : String :=
  if 0 ≤ y ∧ y ≤ 9999 then padNum 4 y.toNat
  else if y < 0 then "-" ++ padNum 6 (-y).toNat
  else "+" ++ padNum 6 y.toNat

/-- The UTC calendar-day string of a millisecond clock value, i.e. what
`new Date(ms).toISOString().split('T')[0]` prints: the day index is the floor
of `ms / 86400000` (the `Date` day grid floors toward the past). -/
def dayStringOfMs (ms : Int) : String :=
  let c := civilFromDays (Int.fdiv ms 86400000)
  yearString c.1 ++ "-" ++ padNum 2 c.2.1.toNat ++ "-" ++ padNum 2 c.2.2.toNat

/-- The conversion `new Date(t * 1000).toISOString().split('T')[0]`
(src/index.js line 90) for an integer-seconds Unix timestamp `t`. -/
def unixToDayString (t : Int) : String :=
  dayStringOfMs (t * 1000)

/-- One formatted point `{ ds, y }` produced by `fetchHistoricalData`
(src/index.js lines 89-92). -/
structure HistPoint where
  ds : String
  y : Option JValue

mutual

/-- JavaScript `String(v)` for JSON values, as invoked when an array is
coerced to a primitive by `ToNumber`: arrays join their elements with commas
(`Array.prototype.toString`), and a plain object prints `"[object Object]"`. -/
def jsToString : JValue → String
  | JValue.null => "null"
  | JValue.bool b => if b then "true" else "false"
  | JValue.num n => toString n
  | JValue.str s => s
  | JValue.arr es => jsJoinList es
  | JValue.obj _ => "[object Object]"

/-- The join `elements.join(",")` of `Array.prototype.toString`: `null` (and
`undefined`) elements contribute the empty string, every other element its
`String(v)`. -/
def jsJoinList : List JValue → String
  | [] => ""
  | [JValue.null] => ""
  | [v] => jsToString v
  | JValue.null :: v :: rest => "," ++ jsJoinList (v :: rest)
  | u :: v :: rest => jsToString u ++ "," ++ jsJoinList (v :: rest)

end

/-- The whitespace characters trimmed by `StringToNumber` (the common set;
the more exotic Unicode space separators are not modelled). -/
def isStrWs (c : Char) : Bool :=
  c == ' ' || c == '\t' || c == '\n' || c == '\r' || c == '\x0b' || c == '\x0c' ||
    c == '\u00a0' || c == '\ufeff' || c == '\u2028' || c == '\u2029'

/-- Decimal value of a digit string. -/
def digitsValue (ds : List Char) : Nat :=
  ds.foldl (fun a c => a * 10 + (c.toNat - 48)) 0

/-- Value of one digit in the given base, for the `0x`/`0o`/`0b` integer
forms of `StringToNumber`. -/
def baseDigitVal (base : Nat) (c : Char) : Option Nat :=
  let d :=
    if '0' ≤ c ∧ c ≤ '9' then some (c.toNat - 48)
    else if 'a' ≤ c ∧ c ≤ 'f' then some (c.toNat - 87)
    else if 'A' ≤ c ∧ c ≤ 'F' then some (c.toNat - 55)
    else none
  match d with
  | some v => if v < base then some v else none
  | none => none

/-- A non-empty all-digits string in the given base, or `none`. -/
def parseBaseDigits (base : Nat) : List Char → Option Nat
  | [] => none
  | cs => cs.foldlM (fun a c => (baseDigitVal base c).map (fun d => a * base + d)) 0

/-- The decimal branch of `StringToNumber` on an already-trimmed string:
optional sign, then `Infinity` (not representable as a finite clock value,
treated like `NaN` since `TimeClip` sends both to an invalid date) or
digits/fraction/exponent.  The result `some (m, e)` denotes the exact value
`m * 10 ^ e`; `none` is `NaN`. -/
def parseDecimal (cs : List Char) : Option (Int × Int) :=
  let sgnSplit : Int × List Char :=
    match cs with
    | '+' :: r => (1, r)
    | '-' :: r => (-1, r)
    | r => (1, r)
  let sgn := sgnSplit.1
  let cs1 := sgnSplit.2
  if cs1 = "Infinity".data then none
  else
    let intPart := cs1.takeWhile Char.isDigit
    let cs2 := cs1.dropWhile Char.isDigit
    let fracSplit : List Char × List Char :=
      match cs2 with
      | '.' :: r => (r.takeWhile Char.isDigit, r.dropWhile Char.isDigit)
      | r => ([], r)
    let fracPart := fracSplit.1
    let cs3 := fracSplit.2
    if intPart.isEmpty ∧ fracPart.isEmpty then none
    else
      let expSplit : Int × List Char :=
        match cs3 with
        | e :: r =>
          if e = 'e' ∨ e = 'E' then
            let esgnSplit : Int × List Char :=
              match r with
              | '+' :: r2 => (1, r2)
              | '-' :: r2 => (-1, r2)
              | r2 => (1, r2)
            let eds := esgnSplit.2.takeWhile Char.isDigit
            if eds.isEmpty then (0, cs3)
            else (esgnSplit.1 * (digitsValue eds : Int), esgnSplit.2.dropWhile Char.isDigit)
          else (0, cs3)
        | [] => (0, [])
      if expSplit.2.isEmpty then
        some (sgn * ((digitsValue intPart * 10 ^ fracPart.length + digitsValue fracPart : Nat) : Int),
          expSplit.1 - fracPart.length)
      else none

/-- ECMAScript `StringToNumber` at exact decimal precision: trims whitespace,
maps the empty string to `0`, parses the `0x`/`0o`/`0b` integer forms (no
sign) and otherwise the signed decimal forms.  `some (m, e)` denotes
`m * 10 ^ e`; `none` stands for `NaN` (and `Infinity`).  IEEE-754 rounding of
extreme literals is outside the model: values are exact, like the model's
numbers. -/
def strToNumber (s : String) : Option (Int × Int) :=
  let cs := ((s.data.dropWhile isStrWs).reverse.dropWhile isStrWs).reverse
  match cs with
  | [] => some (0, 0)
  | '0' :: x :: rest =>
    if x = 'x' ∨ x = 'X' then (parseBaseDigits 16 rest).map (fun n => ((n : Int), 0))
    else if x = 'o' ∨ x = 'O' then (parseBaseDigits 8 rest).map (fun n => ((n : Int), 0))
    else if x = 'b' ∨ x = 'B' then (parseBaseDigits 2 rest).map (fun n => ((n : Int), 0))
    else parseDecimal cs
  | _ => parseDecimal cs

/-- The clock value `trunc(x * 1000)` in milliseconds of a parsed
`m * 10 ^ e` (truncation toward zero, as `TimeClip` does). -/
def msOfParsed (p : Int × Int) : Int :=
  if 0 ≤ p.2 then p.1 * 1000 * (10 : Int) ^ p.2.toNat
  else Int.tdiv (p.1 * 1000) ((10 : Int) ^ (-p.2).toNat)

/-- JavaScript `item.time * 1000` as a clock value: `ToNumber` coercion of
the field, times 1000, truncated.  `none` is `NaN`: a missing key
(`undefined`) and a plain object (whose primitive form `"[object Object]"`
never parses); numbers multiply directly, `null` coerces to `0`, booleans to
`0`/`1`, strings through `StringToNumber`, and arrays through their joined
string. -/
def toNumberMs (v? : Option JValue) : Option Int :=
  match v? with
  | none => none
  | some JValue.null => some 0
  | some (JValue.bool b) => some (if b then 1000 else 0)
  | some (JValue.num n) => some (n * 1000)
  | some (JValue.str s) => (strToNumber s).map msOfParsed
  | some (JValue.arr es) => (strToNumber (jsJoinList es)).map msOfParsed
  | some (JValue.obj _) => none

/-- One step of `rawData.map(item => ({ ds: ..., y: item.close }))`
(src/index.js lines 89-92): the item must be an object (reading `.time` of
`null` throws, and of a primitive yields `undefined`, hence `NaN` below);
`item.time * 1000` goes through `ToNumber` coercion (`toNumberMs`), and the
resulting clock value must lie in the `Date` range (|ms| ≤ 8.64e15, else
`toISOString` throws a RangeError into the surrounding catch); `item.close`
may be absent (`y` is then `undefined`). -/
def toHistPoint (v : JValue) : Option HistPoint :=
  match v with
  | JValue.obj fs =>
    match toNumberMs (lookupField fs "time") with
    | some ms =>
      if ms.natAbs ≤ 8640000000000000 then
        some { ds := dayStringOfMs ms, y := lookupField fs "close" }
      else none
    | none => none
  | _ => none

/-- The map `rawData.map(...)` with a throwing step: `none` when any item throws. -/
def mapPoints : List JValue → Option (List HistPoint)
  | [] => some []
  | v :: vs =>
    match toHistPoint v, mapPoints vs with
    | some p, some ps => some (p :: ps)
    | _, _ => none

/-- Outcome of mapping the raw array: the formatted list, or the thrown
(and rethrown) error when some item throws. -/
def formatRaw (items : List JValue) : Except String (List HistPoint) :=
  match mapPoints items with
  | some pts => Except.ok pts
  | none => Except.error "TypeError"

/-- The function `fetchHistoricalData` (src/index.js lines 83-99) as a
function of the market-data HTTP outcome: a rejected call is rethrown
unchanged; on a response, `response.data.Data.Data` must reach an array (any
missing step throws a TypeError — only arrays have `.map`) and each item must
format (`formatRaw`), else the thrown error is rethrown; otherwise the
formatted list is returned. -/
def fetchHistoricalData (resp : Except String JValue) :
    Except String (List HistPoint) :=
  match resp with
  | Except.error e => Except.error e
  | Except.ok data =>
    match (getProp data "Data").bind (fun d => getProp d "Data") with
    | some (JValue.arr items) => formatRaw items
    | _ => Except.error "TypeError"

end CryptoHub

namespace CryptoHub

/-! ## Association-list lemmas -/

theorem lookupField_nil (k : String) : lookupField [] k = none := rfl

theorem lookupField_cons (k' : String) (v : JValue) (o : JObj) (k : String) :
    lookupField ((k', v) :: o) k = if k' == k then some v else lookupField o k := by
  cases h : k' == k <;> simp [lookupField, List.find?_cons, h]

theorem lookupField_append_left {a : JObj} {k : String} {v : JValue} (b : JObj)
    (h : lookupField a k = some v) : lookupField (a ++ b) k = some v := by
  unfold lookupField at *
  cases hf : a.find? (fun kv => kv.1 == k) with
  | none => rw [hf] at h; simp at h
  | some kv => rw [hf] at h; simp [List.find?_append, hf, h]

theorem lookupField_append_right {a : JObj} {k : String} (b : JObj)
    (h : lookupField a k = none) : lookupField (a ++ b) k = lookupField b k := by
  unfold lookupField at *
  cases hf : a.find? (fun kv => kv.1 == k) with
  | none => simp [List.find?_append, hf]
  | some kv => rw [hf] at h; simp at h

theorem lookupField_map_snd (o : JObj) (g : String × JValue → JValue) (k : String) :
    lookupField (o.map (fun kv => (kv.1, g kv))) k
      = (o.find? (fun kv => kv.1 == k)).map g := by
  induction o with
  | nil => rfl
  | cons kv o ih =>
    cases h : kv.1 == k
    all_goals simp [lookupField, List.find?_cons, h]
    all_goals simpa [lookupField] using ih

theorem lookupField_eq_none_of_find?_none {o : JObj} {k : String}
    (h : o.find? (fun kv => kv.1 == k) = none) : lookupField o k = none := by
  simp [lookupField, h]

theorem find?_none_of_lookupField_none {o : JObj} {k : String}
    (h : lookupField o k = none) : o.find? (fun kv => kv.1 == k) = none := by
  unfold lookupField at h
  cases hf : o.find? (fun kv => kv.1 == k) with
  | none => rfl
  | some kv => rw [hf] at h; simp at h

end CryptoHub

namespace CryptoHub
theorem lookupField_filter_keep {old : JObj} (body : JObj) (k : String)
    (h : lookupField old k = none) :
    lookupField (body.filter (fun kv => (lookupField old kv.1).isNone)) k
      = lookupField body k := by
  induction body with
  | nil => rfl
  | cons kv rest ih =>
    obtain ⟨k1, v1⟩ := kv
    by_cases hk : k1 = k
    · subst hk
      simp only [List.filter_cons, h, Option.isNone_none]
      rw [if_pos trivial, lookupField_cons, lookupField_cons]
      simp
    · have hkb : (k1 == k) = false := by simp [hk]
      by_cases hq : (lookupField old k1).isNone = true
      · simp only [List.filter_cons]
        rw [if_pos hq, lookupField_cons, lookupField_cons, hkb, ih]
      · simp only [List.filter_cons]
        rw [if_neg hq, ih, lookupField_cons, hkb]
        simp

theorem lookupField_filter_none {old : JObj} (body : JObj) (k : String)
    (h : lookupField body k = none) :
    lookupField (body.filter (fun kv => (lookupField old kv.1).isNone)) k = none := by
  apply lookupField_eq_none_of_find?_none
  rw [List.find?_eq_none]
  intro kv hkv
  have hmem : kv ∈ body := List.mem_of_mem_filter hkv
  have hnone := find?_none_of_lookupField_none h
  rw [List.find?_eq_none] at hnone
  exact hnone kv hmem

theorem lookupField_mergeObj_present {body : JObj} {k : String} {v : JValue} (old : JObj)
    (h : lookupField body k = some v) :
    lookupField (mergeObj old body) k = some v := by
  unfold mergeObj
  cases hf : old.find? (fun kv => kv.1 == k) with
  | some kv0 =>
    apply lookupField_append_left
    rw [lookupField_map_snd, hf]
    have hk := List.find?_some hf
    have hke : kv0.1 = k := by simpa using hk
    simp [hke, h]
  | none =>
    rw [lookupField_append_right]
    · rw [lookupField_filter_keep body k (lookupField_eq_none_of_find?_none hf)]
      exact h
    · rw [lookupField_map_snd, hf]
      rfl

theorem lookupField_mergeObj_absent {body : JObj} {k : String} (old : JObj)
    (h : lookupField body k = none) :
    lookupField (mergeObj old body) k = lookupField old k := by
  unfold mergeObj
  cases hf : old.find? (fun kv => kv.1 == k) with
  | some kv0 =>
    have hk := List.find?_some hf
    have hke : kv0.1 = k := by simpa using hk
    have h1 : lookupField (old.map (fun kv => (kv.1, (lookupField body kv.1).getD kv.2))) k
        = some kv0.2 := by
      rw [lookupField_map_snd, hf]
      simp [hke, h]
    rw [lookupField_append_left _ h1]
    simp [lookupField, hf]
  | none =>
    rw [lookupField_append_right]
    · rw [lookupField_filter_none body k h, lookupField_eq_none_of_find?_none hf]
    · rw [lookupField_map_snd, hf]
      rfl

theorem replaceVal_cons (kv : String × JValue) (o : JObj) (k : String) (v : JValue) :
    replaceVal (kv :: o) k v = (if kv.1 == k then (k, v) else kv) :: replaceVal o k v := rfl

theorem lookupField_replaceVal_self {o : JObj} {k : String} (v : JValue)
    (h : o.any (fun kv => kv.1 == k) = true) :
    lookupField (replaceVal o k v) k = some v := by
  induction o with
  | nil => simp at h
  | cons kv o ih =>
    obtain ⟨k1, v1⟩ := kv
    rw [replaceVal_cons]
    by_cases h1 : k1 = k
    · rw [if_pos (by simp [h1]), lookupField_cons]
      simp
    · have h1b : (k1 == k) = false := by simp [h1]
      rw [if_neg (by simp [h1]), lookupField_cons, h1b]
      simp only [Bool.false_eq_true, if_false]
      apply ih
      rw [List.any_cons] at h
      simpa [h1b] using h

theorem lookupField_replaceVal_ne {k k' : String} (o : JObj) (v : JValue)
    (hne : k ≠ k') :
    lookupField (replaceVal o k v) k' = lookupField o k' := by
  induction o with
  | nil => rfl
  | cons kv o ih =>
    obtain ⟨k1, v1⟩ := kv
    rw [replaceVal_cons]
    by_cases h1 : k1 = k
    · have hf : (k == k') = false := by simp [hne]
      have hf1 : (k1 == k') = false := by simp [h1, hne]
      rw [if_pos (by simp [h1]), lookupField_cons, lookupField_cons, ih, hf, hf1]
      simp
    · rw [if_neg (by simp [h1]), lookupField_cons, lookupField_cons, ih]

theorem lookupField_setField_self (o : JObj) (k : String) (v : JValue) :
    lookupField (setField o k v) k = some v := by
  unfold setField
  by_cases h : o.any (fun kv => kv.1 == k) = true
  · rw [if_pos h]
    exact lookupField_replaceVal_self v h
  · rw [if_neg h]
    rw [lookupField_append_right]
    · rw [lookupField_cons]
      simp
    · apply lookupField_eq_none_of_find?_none
      rw [List.find?_eq_none]
      intro kv hkv
      rw [Bool.not_eq_true, List.any_eq_false] at h
      exact h kv hkv

theorem lookupField_setField_ne (o : JObj) {k : String} (v : JValue) {k' : String}
    (hne : k ≠ k') : lookupField (setField o k v) k' = lookupField o k' := by
  unfold setField
  by_cases h : o.any (fun kv => kv.1 == k) = true
  · rw [if_pos h]
    exact lookupField_replaceVal_ne o v hne
  · rw [if_neg h]
    cases hl : lookupField o k' with
    | some w => exact lookupField_append_left _ hl
    | none =>
      rw [lookupField_append_right _ hl, lookupField_cons]
      rw [(by simp [hne] : (k == k') = false)]
      rfl

theorem lookupField_applyIfTruthy_ne {k k' : String} (o : JObj) (v? : Option JValue)
    (hne : k ≠ k') : lookupField (applyIfTruthy o k v?) k' = lookupField o k' := by
  cases v? with
  | none => rfl
  | some v =>
    show lookupField (if jTruthy v then setField o k v else o) k' = lookupField o k'
    by_cases ht : jTruthy v = true
    · rw [if_pos ht]
      exact lookupField_setField_ne o v hne
    · rw [if_neg ht]

theorem applyIfTruthy_of_truthy {v : JValue} (o : JObj) (k : String)
    (ht : jTruthy v = true) : applyIfTruthy o k (some v) = setField o k v := by
  show (if jTruthy v then setField o k v else o) = setField o k v
  rw [if_pos ht]

/-! ## `findIndex` / `splice` / indexed-update lemmas -/

theorem findIdx?_shift {α : Type} (p : α → Bool) (l : List α) (j : Nat) :
    List.findIdx? p l j = (List.findIdx? p l 0).map (fun k => k + j) := by
  induction l generalizing j with
  | nil => simp [List.findIdx?]
  | cons x xs ih =>
    rw [List.findIdx?_cons, List.findIdx?_cons]
    by_cases h : p x = true
    · rw [if_pos h, if_pos h]
      simp
    · rw [if_neg h, if_neg h, ih (j + 1), ih 1, Option.map_map]
      cases List.findIdx? p xs 0 with
      | none => rfl
      | some k =>
        simp
        omega

theorem findIdx?_cons0 {α : Type} (p : α → Bool) (x : α) (xs : List α) :
    List.findIdx? p (x :: xs)
      = if p x then some 0 else (List.findIdx? p xs).map (fun k => k + 1) := by
  rw [List.findIdx?_cons]
  by_cases h : p x = true
  · rw [if_pos h, if_pos h]
  · rw [if_neg h, if_neg h, findIdx?_shift]

theorem findIdx?_lt_length {α : Type} {p : α → Bool} {l : List α} {i : Nat}
    (h : List.findIdx? p l = some i) : i < l.length := by
  induction l generalizing i with
  | nil => simp [List.findIdx?] at h
  | cons x xs ih =>
    rw [findIdx?_cons0] at h
    by_cases hp : p x = true
    · rw [if_pos hp] at h
      cases h
      simp
    · rw [if_neg hp] at h
      cases hf : List.findIdx? p xs with
      | none =>
        rw [hf] at h
        simp at h
      | some j =>
        rw [hf] at h
        simp at h
        have := ih hf
        simp
        omega

theorem elem_of_findIdx? {α : Type} {p : α → Bool} {l : List α} {i : Nat}
    (h : List.findIdx? p l = some i) : ∃ a, l[i]? = some a ∧ p a = true := by
  induction l generalizing i with
  | nil => simp [List.findIdx?] at h
  | cons x xs ih =>
    rw [findIdx?_cons0] at h
    by_cases hp : p x = true
    · rw [if_pos hp] at h
      cases h
      exact ⟨x, by simp, hp⟩
    · rw [if_neg hp] at h
      cases hf : List.findIdx? p xs with
      | none =>
        rw [hf] at h
        simp at h
      | some j =>
        rw [hf] at h
        simp at h
        obtain ⟨a, ha, hpa⟩ := ih hf
        refine ⟨a, ?_, hpa⟩
        rw [← h]
        simpa using ha

theorem eraseIdx_find?_none {α : Type} {p : α → Bool} :
    ∀ {l : List α} {i : Nat}, l.countP p ≤ 1 → List.findIdx? p l = some i →
      (l.eraseIdx i).find? p = none := by
  intro l
  induction l with
  | nil =>
    intro i _ h
    simp [List.findIdx?] at h
  | cons x xs ih =>
    intro i hcount hidx
    rw [findIdx?_cons0] at hidx
    by_cases hp : p x = true
    · rw [if_pos hp] at hidx
      cases hidx
      rw [List.eraseIdx_cons_zero, List.find?_eq_none]
      rw [List.countP_cons, if_pos hp] at hcount
      have hzero : xs.countP p = 0 := by omega
      rw [List.countP_eq_zero] at hzero
      exact hzero
    · rw [if_neg hp] at hidx
      cases hf : List.findIdx? p xs with
      | none =>
        rw [hf] at hidx
        simp at hidx
      | some j =>
        rw [hf] at hidx
        simp at hidx
        rw [← hidx, List.eraseIdx_cons_succ, List.find?_cons]
        have hpb : p x = false := by simpa using hp
        rw [hpb]
        apply ih ?_ hf
        rw [List.countP_cons, if_neg hp] at hcount
        omega

theorem getD_set_self {α : Type} {l : List α} {i : Nat} (a d : α) (h : i < l.length) :
    (l.set i a).getD i d = a := by
  rw [List.getD_eq_getElem?_getD, List.getElem?_set_self h]
  rfl

theorem getD_set_ne {α : Type} {l : List α} {i j : Nat} (a d : α) (h : i ≠ j) :
    (l.set i a).getD j d = l.getD j d := by
  rw [List.getD_eq_getElem?_getD, List.getElem?_set_ne h, List.getD_eq_getElem?_getD]

/-! ## Claim theorems -/

/-- C5: saving a collection as the JSON document `{ "portfolios": [...] }` and
loading it back yields exactly the saved collection, whatever `portfolios` held
before the load. -/
theorem c5_save_load_roundtrip (X : List JObj) (prev : JValue) :
    loadResult (some (savePortfoliosDoc X)) prev = JValue.arr (X.map JValue.obj) := rfl

/-- C7: `POST /portfolios` appends the new record to the in-memory collection
whether or not the persist succeeds; when the write fails the collection still
contains the record (no rollback) and the response is 500 with the
persistence-failure error. -/
theorem c7_insert_no_rollback (ps : List JObj) (p : JObj) :
    (∀ w, (postPortfolios ps p w).1 = ps ++ [p])
    ∧ p ∈ (postPortfolios ps p false).1
    ∧ (postPortfolios ps p false).2
        = ⟨500, errBody "Failed to save new portfolio"⟩ := by
  refine ⟨fun w => rfl, ?_, rfl⟩
  show p ∈ ps ++ [p]
  simp

/-- C8: when the persistence file is missing or unparseable (the read or the
parse threw), startup loading leaves the collection empty and the process
continues (the catch swallows the error). -/
theorem c8_startup_missing_or_corrupt : loadPortfoliosStartup none = JValue.arr [] := rfl

/-- C1 (counterexample): inserting a portfolio whose `id` collides with an
existing record and reading that id back returns the *earlier* record
(`find` takes the first match), not the object just inserted. -/
theorem c1_counterexample :
    lookupField [("id", JValue.str "a"), ("x", JValue.num 2)] "id"
      = some (JValue.str "a")
    ∧ getById ((postPortfolios [[("id", JValue.str "a"), ("x", JValue.num 1)]]
        [("id", JValue.str "a"), ("x", JValue.num 2)] true).1) "a"
        = some [("id", JValue.str "a"), ("x", JValue.num 1)]
    ∧ ([("id", JValue.str "a"), ("x", JValue.num 1)] : JObj)
        ≠ [("id", JValue.str "a"), ("x", JValue.num 2)] := by
  refine ⟨rfl, rfl, ?_⟩
  intro h
  simp only [List.cons.injEq, Prod.mk.injEq] at h
  have h2 : JValue.num 1 = JValue.num 2 := h.2.1.2
  injection h2 with h3
  omega

/-- C1 (amended): `insert` then `getById` on the inserted record's `id`
returns the inserted object, provided the record's `id` field is that string
and no record already in the store matches it. -/
theorem c1_insert_then_getById (ps : List JObj) (p : JObj) (id : String) (w : Bool)
    (hid : lookupField p "id" = some (JValue.str id))
    (hfresh : ∀ q ∈ ps, matchesId id q = false) :
    getById ((postPortfolios ps p w).1) id = some p := by
  have hstate : (postPortfolios ps p w).1 = ps ++ [p] := rfl
  rw [hstate]
  unfold getById
  rw [List.find?_append]
  have hnone : ps.find? (matchesId id) = none := by
    rw [List.find?_eq_none]
    intro q hq
    simp [hfresh q hq]
  have hmatch : matchesId id p = true := by
    unfold matchesId
    rw [hid]
    simp
  rw [hnone]
  simp [List.find?_cons, hmatch]

theorem c1_witness :
    getById ((postPortfolios [[("id", JValue.str "b")]]
        [("id", JValue.str "a"), ("coins", JValue.arr [JValue.str "BTC"])] true).1) "a"
      = some [("id", JValue.str "a"), ("coins", JValue.arr [JValue.str "BTC"])] :=
  c1_insert_then_getById _ _ _ _ rfl (by decide)

/-- C2 (counterexample): with two records sharing an id, `DELETE` removes only
the first match (`splice` at `findIndex`), so `getById` still finds a record
afterwards and a second `DELETE` succeeds (status 200, not 404). -/
theorem c2_counterexample :
    getById ((deletePortfolio
        [[("id", JValue.str "a")], [("id", JValue.str "a"), ("x", JValue.num 1)]]
        "a" true).1) "a"
      = some [("id", JValue.str "a"), ("x", JValue.num 1)]
    ∧ (deletePortfolio ((deletePortfolio
        [[("id", JValue.str "a")], [("id", JValue.str "a"), ("x", JValue.num 1)]]
        "a" true).1) "a" true).2.status = 200 :=
  ⟨rfl, rfl⟩

/-- C2 (amended): when at most one record matches the id, `remove` followed by
`getById` returns not-found, and after a successful `remove` a second `remove`
of the same id reports 404. -/
theorem c2_remove_then_getById (ps : List JObj) (id : String) (w w' : Bool)
    (huniq : ps.countP (matchesId id) ≤ 1) :
    getById ((deletePortfolio ps id w).1) id = none
    ∧ ((deletePortfolio ps id w).2.status ≠ 404 →
        (deletePortfolio ((deletePortfolio ps id w).1) id w').2.status = 404) := by
  cases hf : ps.findIdx? (matchesId id) with
  | none =>
    have hstate : (deletePortfolio ps id w).1 = ps := by
      simp [deletePortfolio, hf]
    have hresp : (deletePortfolio ps id w).2.status = 404 := by
      simp [deletePortfolio, hf]
    constructor
    · rw [hstate]
      unfold getById
      rw [List.find?_eq_none]
      rw [List.findIdx?_eq_none_iff] at hf
      intro q hq
      simp [hf q hq]
    · intro hne
      exact absurd hresp hne
  | some i =>
    have hstate : (deletePortfolio ps id w).1 = ps.eraseIdx i := by
      simp [deletePortfolio, hf]
    have hnone : (ps.eraseIdx i).find? (matchesId id) = none :=
      eraseIdx_find?_none huniq hf
    constructor
    · rw [hstate]
      exact hnone
    · intro _
      have hfi2 : (ps.eraseIdx i).findIdx? (matchesId id) = none := by
        rw [List.findIdx?_eq_none_iff]
        rw [List.find?_eq_none] at hnone
        intro x hx
        simpa using hnone x hx
      rw [hstate]
      simp [deletePortfolio, hfi2]

theorem c2_witness :
    getById ((deletePortfolio [[("id", JValue.str "a"), ("x", JValue.num 1)]]
        "a" true).1) "a" = none
    ∧ (deletePortfolio ((deletePortfolio [[("id", JValue.str "a"), ("x", JValue.num 1)]]
        "a" true).1) "a" true).2.status = 404 := by
  have h := c2_remove_then_getById [[("id", JValue.str "a"), ("x", JValue.num 1)]]
    "a" true true (by decide)
  exact ⟨h.1, h.2 (by decide)⟩

/-- C3 (counterexample): a PATCH body carrying the whitelisted key `values`
with the falsy value `0` is *not* applied — the guard `if (values)` tests
truthiness, not presence — so the record keeps its old `values`. -/
theorem c3_counterexample :
    lookupField [("values", JValue.num 0)] "values" = some (JValue.num 0)
    ∧ lookupField (((patchPortfolio [[("id", JValue.str "a"), ("values", JValue.num 5)]]
        "a" [("values", JValue.num 0)] true).1).getD 0 []) "values"
        = some (JValue.num 5)
    ∧ JValue.num 5 ≠ JValue.num 0 := by
  refine ⟨rfl, rfl, ?_⟩
  intro h
  injection h with h5
  omega

/-- C3 (amended): each whitelisted key (`analysis`, `coins`, `values`) that is
present in the PATCH body *with a truthy value* is applied: the stored
record's field becomes the patch value. -/
theorem c3_patch_truthy_applied (ps : List JObj) (id : String) (body : JObj) (w : Bool)
    (i : Nat) (k : String) (v : JValue)
    (hi : ps.findIdx? (matchesId id) = some i)
    (hk : k = "analysis" ∨ k = "coins" ∨ k = "values")
    (hv : lookupField body k = some v)
    (ht : jTruthy v = true) :
    lookupField (((patchPortfolio ps id body w).1).getD i []) k = some v := by
  have hlen : i < ps.length := findIdx?_lt_length hi
  have hstate : (patchPortfolio ps id body w).1
      = ps.set i (applyIfTruthy (applyIfTruthy (applyIfTruthy (ps.getD i [])
          "analysis" (lookupField body "analysis")) "coins" (lookupField body "coins"))
          "values" (lookupField body "values")) := by
    simp [patchPortfolio, hi]
  rw [hstate, getD_set_self _ _ hlen]
  rcases hk with hk | hk | hk
  · subst hk
    rw [lookupField_applyIfTruthy_ne _ _ (by decide), lookupField_applyIfTruthy_ne _ _ (by decide),
      hv, applyIfTruthy_of_truthy _ _ ht]
    exact lookupField_setField_self _ _ _
  · subst hk
    rw [lookupField_applyIfTruthy_ne _ _ (by decide), hv, applyIfTruthy_of_truthy _ _ ht]
    exact lookupField_setField_self _ _ _
  · subst hk
    rw [hv, applyIfTruthy_of_truthy _ _ ht]
    exact lookupField_setField_self _ _ _

theorem c3_witness :
    lookupField (((patchPortfolio [[("id", JValue.str "a"), ("coins", JValue.str "old")]]
        "a" [("coins", JValue.arr [JValue.str "BTC"])] true).1).getD 0 []) "coins"
      = some (JValue.arr [JValue.str "BTC"]) :=
  c3_patch_truthy_applied _ _ _ _ _ _ _ rfl (Or.inr (Or.inl rfl)) rfl rfl

/-- C4: for an existing record, PATCH leaves every field outside
`{analysis, coins, values}` unchanged, and PUT overwrites exactly the
top-level keys present in the request body: present keys take the body's
value, absent keys keep the record's value. -/
theorem c4_patch_put_frame (ps : List JObj) (id : String) (body : JObj) (w : Bool)
    (i : Nat) (hi : ps.findIdx? (matchesId id) = some i) :
    (∀ k, k ≠ "analysis" → k ≠ "coins" → k ≠ "values" →
      lookupField (((patchPortfolio ps id body w).1).getD i []) k
        = lookupField (ps.getD i []) k)
    ∧ (∀ k v, lookupField body k = some v →
        lookupField (((putPortfolio ps id body w).1).getD i []) k = some v)
    ∧ (∀ k, lookupField body k = none →
        lookupField (((putPortfolio ps id body w).1).getD i []) k
          = lookupField (ps.getD i []) k) := by
  have hlen : i < ps.length := findIdx?_lt_length hi
  have hpatch : (patchPortfolio ps id body w).1
      = ps.set i (applyIfTruthy (applyIfTruthy (applyIfTruthy (ps.getD i [])
          "analysis" (lookupField body "analysis")) "coins" (lookupField body "coins"))
          "values" (lookupField body "values")) := by
    simp [patchPortfolio, hi]
  have hput : (putPortfolio ps id body w).1
      = ps.set i (mergeObj (ps.getD i []) body) := by
    simp [putPortfolio, hi]
  refine ⟨?_, ?_, ?_⟩
  · intro k h1 h2 h3
    rw [hpatch, getD_set_self _ _ hlen,
      lookupField_applyIfTruthy_ne _ _ (Ne.symm h3),
      lookupField_applyIfTruthy_ne _ _ (Ne.symm h2),
      lookupField_applyIfTruthy_ne _ _ (Ne.symm h1)]
  · intro k v hv
    rw [hput, getD_set_self _ _ hlen]
    exact lookupField_mergeObj_present _ hv
  · intro k hv
    rw [hput, getD_set_self _ _ hlen]
    exact lookupField_mergeObj_absent _ hv

theorem c4_witness :
    lookupField (((patchPortfolio
        [[("id", JValue.str "a"), ("name", JValue.str "n"), ("coins", JValue.num 1)]]
        "a" [("coins", JValue.num 2), ("extra", JValue.num 3)] true).1).getD 0 []) "name"
      = some (JValue.str "n")
    ∧ lookupField (((putPortfolio
        [[("id", JValue.str "a"), ("name", JValue.str "n"), ("coins", JValue.num 1)]]
        "a" [("coins", JValue.num 2), ("extra", JValue.num 3)] true).1).getD 0 []) "coins"
      = some (JValue.num 2)
    ∧ lookupField (((putPortfolio
        [[("id", JValue.str "a"), ("name", JValue.str "n"), ("coins", JValue.num 1)]]
        "a" [("coins", JValue.num 2), ("extra", JValue.num 3)] true).1).getD 0 []) "name"
      = some (JValue.str "n") := by
  have h := c4_patch_put_frame
    [[("id", JValue.str "a"), ("name", JValue.str "n"), ("coins", JValue.num 1)]]
    "a" [("coins", JValue.num 2), ("extra", JValue.num 3)] true 0 rfl
  refine ⟨?_, h.2.1 "coins" _ rfl, ?_⟩
  · rw [h.1 "name" (by decide) (by decide) (by decide)]
    rfl
  · rw [h.2.2 "name" rfl]
    rfl

/-- C6 (counterexample): with a well-formed request body, an upstream success
whose body is neither an array nor a string is answered 500 (the logging
`.slice` call throws), not with the upstream body. -/
theorem c6_counterexample :
    lookupField [("historical_data", JValue.arr [])] "historical_data"
      = some (JValue.arr [])
    ∧ postPredictions [("historical_data", JValue.arr [])]
        (fun _ => Except.ok (JValue.num 7))
      = ⟨500, errBody "Failed to fetch predictions from Flask"⟩
    ∧ (⟨500, errBody "Failed to fetch predictions from Flask"⟩ : Resp).body
      ≠ JValue.num 7 := by
  refine ⟨rfl, rfl, ?_⟩
  intro h
  exact JValue.noConfusion h

theorem postPredictions_of_arr {body : JObj} {xs : List JValue}
    (svc : JValue → Except String JValue)
    (hxs : lookupField body "historical_data" = some (JValue.arr xs)) :
    postPredictions body svc = flaskRespond (svc (JValue.arr xs)) := by
  unfold postPredictions
  rw [hxs]

theorem postPredictions_of_bad {body : JObj} (svc : JValue → Except String JValue)
    (h : ∀ xs, lookupField body "historical_data" ≠ some (JValue.arr xs)) :
    postPredictions body svc = ⟨400, errBody "Invalid or missing historical_data"⟩ := by
  unfold postPredictions
  cases hd : lookupField body "historical_data" with
  | none => rfl
  | some v =>
    cases v with
    | arr xs => exact absurd hd (h xs)
    | null => rfl
    | bool b => rfl
    | num n => rfl
    | str s => rfl
    | obj fs => rfl

/-- C6 (amended): the handler answers 400 with the validation error exactly
when the body's `historical_data` is missing or not an array; otherwise the
array is forwarded to the prediction service and, on success, a body that is
an array (or a string) is returned unmodified with 200, while an upstream
error — or a success body that supports no `slice` (neither array nor
string) — is answered 500. -/
theorem c6_predictions (body : JObj) (svc : JValue → Except String JValue) :
    (postPredictions body svc = ⟨400, errBody "Invalid or missing historical_data"⟩
      ↔ ∀ xs, lookupField body "historical_data" ≠ some (JValue.arr xs))
    ∧ (∀ xs ys, lookupField body "historical_data" = some (JValue.arr xs) →
        svc (JValue.arr xs) = Except.ok (JValue.arr ys) →
        postPredictions body svc = ⟨200, JValue.arr ys⟩)
    ∧ (∀ xs s, lookupField body "historical_data" = some (JValue.arr xs) →
        svc (JValue.arr xs) = Except.ok (JValue.str s) →
        postPredictions body svc = ⟨200, JValue.str s⟩)
    ∧ (∀ xs e, lookupField body "historical_data" = some (JValue.arr xs) →
        svc (JValue.arr xs) = Except.error e →
        postPredictions body svc = ⟨500, errBody "Failed to fetch predictions from Flask"⟩)
    ∧ (∀ xs d, lookupField body "historical_data" = some (JValue.arr xs) →
        svc (JValue.arr xs) = Except.ok d →
        (∀ es, d ≠ JValue.arr es) → (∀ s, d ≠ JValue.str s) →
        postPredictions body svc = ⟨500, errBody "Failed to fetch predictions from Flask"⟩) := by
  refine ⟨?_, ?_, ?_, ?_, ?_⟩
  · constructor
    · intro h xs hxs
      rw [postPredictions_of_arr svc hxs] at h
      cases hsvc : svc (JValue.arr xs) with
      | error e =>
        rw [hsvc] at h
        simp [flaskRespond, errBody] at h
      | ok d =>
        rw [hsvc] at h
        cases d <;> simp [flaskRespond, errBody] at h
    · intro h
      exact postPredictions_of_bad svc h
  · intro xs ys hxs hsvc
    rw [postPredictions_of_arr svc hxs, hsvc]
    rfl
  · intro xs s hxs hsvc
    rw [postPredictions_of_arr svc hxs, hsvc]
    rfl
  · intro xs e hxs hsvc
    rw [postPredictions_of_arr svc hxs, hsvc]
    rfl
  · intro xs d hxs hsvc hna hns
    rw [postPredictions_of_arr svc hxs, hsvc]
    cases d with
    | arr es => exact absurd rfl (hna es)
    | str s => exact absurd rfl (hns s)
    | null => rfl
    | bool b => rfl
    | num n => rfl
    | obj fs => rfl

theorem c6_witness :
    postPredictions [("historical_data", JValue.arr [JValue.num 1])]
        (fun _ => Except.ok (JValue.arr [JValue.num 9]))
      = ⟨200, JValue.arr [JValue.num 9]⟩ :=
  (c6_predictions _ _).2.1 [JValue.num 1] [JValue.num 9] rfl rfl

theorem toHistPoint_obj (fs : JObj) :
    toHistPoint (JValue.obj fs)
      = match toNumberMs (lookupField fs "time") with
        | some ms =>
          if ms.natAbs ≤ 8640000000000000 then
            some { ds := dayStringOfMs ms, y := lookupField fs "close" }
          else none
        | none => none := rfl

theorem fetchHistoricalData_ok (data : JValue) :
    fetchHistoricalData (Except.ok data)
      = match (getProp data "Data").bind (fun d => getProp d "Data") with
        | some (JValue.arr items) => formatRaw items
        | _ => Except.error "TypeError" := rfl

theorem fetchHistoricalData_of_arr {data : JValue} {items : List JValue}
    (h : (getProp data "Data").bind (fun d => getProp d "Data")
      = some (JValue.arr items)) :
    fetchHistoricalData (Except.ok data) = formatRaw items := by
  rw [fetchHistoricalData_ok, h]

theorem fetchHistoricalData_of_bad {data : JValue}
    (h : ∀ items, (getProp data "Data").bind (fun d => getProp d "Data")
      ≠ some (JValue.arr items)) :
    fetchHistoricalData (Except.ok data) = Except.error "TypeError" := by
  rw [fetchHistoricalData_ok]
  cases hd : (getProp data "Data").bind (fun d => getProp d "Data") with
  | none => rfl
  | some v =>
    cases v with
    | arr items => exact absurd hd (h items)
    | null => rfl
    | bool b => rfl
    | num n => rfl
    | str sv => rfl
    | obj fs => rfl

/-- C9 (counterexample): an off-spec point whose `time` is `null` — not a
Unix timestamp — does not make the function fail: `null * 1000` coerces to
`0` via `ToNumber`, so the point is silently mapped to `1970-01-01` and the
call succeeds, refuting the unconditional "returns an unexpected shape ⟹
fails by propagating the error". -/
theorem c9_counterexample :
    lookupField [("time", JValue.null), ("close", JValue.num 9)] "time"
      = some JValue.null
    ∧ fetchHistoricalData (Except.ok (JValue.obj [("Data", JValue.obj [("Data",
        JValue.arr [JValue.obj [("time", JValue.null), ("close", JValue.num 9)]])])]))
      = Except.ok [HistPoint.mk "1970-01-01" (some (JValue.num 9))] :=
  ⟨rfl, rfl⟩

/-- C9 (amended): `fetchHistoricalData` propagates an upstream rejection
unchanged; when `response.data.Data.Data` is an array, every item whose
`time` coerces to an in-range clock value is mapped to `{ ds := calendar-day
string of the coerced value, y := item.close }` — a numeric `time` yields
the day of that Unix timestamp, while an off-spec `null` time coerces to `0`
and maps to `1970-01-01` instead of failing; the function fails with the
rethrown error exactly when the shape never reaches the array or some item's
date construction throws (`time` missing or an object or a non-numeric
string, or the coerced value out of `Date` range). -/
theorem c9_fetch_history :
    (∀ msg, fetchHistoricalData (Except.error msg) = Except.error msg)
    ∧ (∀ data items pts,
        (getProp data "Data").bind (fun d => getProp d "Data")
          = some (JValue.arr items) →
        mapPoints items = some pts →
        fetchHistoricalData (Except.ok data) = Except.ok pts)
    ∧ (∀ fs t, lookupField fs "time" = some (JValue.num t) →
        t.natAbs ≤ 8640000000000 →
        toHistPoint (JValue.obj fs)
          = some { ds := unixToDayString t, y := lookupField fs "close" })
    ∧ (∀ data, (∀ items, (getProp data "Data").bind (fun d => getProp d "Data")
          ≠ some (JValue.arr items)) →
        fetchHistoricalData (Except.ok data) = Except.error "TypeError")
    ∧ (∀ data items,
        (getProp data "Data").bind (fun d => getProp d "Data")
          = some (JValue.arr items) →
        mapPoints items = none →
        fetchHistoricalData (Except.ok data) = Except.error "TypeError")
    ∧ (∀ fs, lookupField fs "time" = some JValue.null →
        toHistPoint (JValue.obj fs)
          = some { ds := "1970-01-01", y := lookupField fs "close" }) := by
  refine ⟨fun msg => rfl, ?_, ?_, ?_, ?_, ?_⟩
  · intro data items pts hnav hmap
    rw [fetchHistoricalData_of_arr hnav]
    unfold formatRaw
    rw [hmap]
  · intro fs t htime hrange
    rw [toHistPoint_obj, htime]
    show (if (t * 1000).natAbs ≤ 8640000000000000 then
        some (HistPoint.mk (dayStringOfMs (t * 1000)) (lookupField fs "close")) else none)
      = some (HistPoint.mk (unixToDayString t) (lookupField fs "close"))
    have hb : (t * 1000).natAbs ≤ 8640000000000000 := by
      rw [Int.natAbs_mul, (show ((1000 : Int)).natAbs = 1000 from rfl)]
      omega
    rw [if_pos hb]
    rfl
  · intro data hne
    exact fetchHistoricalData_of_bad hne
  · intro data items hnav hmap
    rw [fetchHistoricalData_of_arr hnav]
    unfold formatRaw
    rw [hmap]
  · intro fs htime
    rw [toHistPoint_obj, htime]
    show (if (0 : Int).natAbs ≤ 8640000000000000 then
        some (HistPoint.mk (dayStringOfMs 0) (lookupField fs "close")) else none)
      = some (HistPoint.mk "1970-01-01" (lookupField fs "close"))
    rw [if_pos (by decide)]
    rfl

theorem c9_witness :
    fetchHistoricalData (Except.ok (JValue.obj
        [("Response", JValue.str "Success"),
         ("Data", JValue.obj [("Data", JValue.arr
            [JValue.obj [("time", JValue.num 1700000000), ("close", JValue.num 42)]])])]))
      = Except.ok [HistPoint.mk "2023-11-14" (some (JValue.num 42))] :=
  c9_fetch_history.2.1 _
    [JValue.obj [("time", JValue.num 1700000000), ("close", JValue.num 42)]]
    [HistPoint.mk "2023-11-14" (some (JValue.num 42))] rfl rfl

/-- C10 (counterexample): a PUT whose body carries an `id` key equal to the
record's current id does replace the field, but the record remains reachable
under that (unchanged) id, contradicting the unconditional "no longer
reachable under its former id". -/
theorem c10_counterexample :
    lookupField [("id", JValue.str "a"), ("x", JValue.num 2)] "id"
      = some (JValue.str "a")
    ∧ getById ((putPortfolio [[("id", JValue.str "a"), ("x", JValue.num 1)]]
        "a" [("id", JValue.str "a"), ("x", JValue.num 2)] true).1) "a"
      = some (mergeObj [("id", JValue.str "a"), ("x", JValue.num 1)]
          [("id", JValue.str "a"), ("x", JValue.num 2)]) :=
  ⟨rfl, rfl⟩

/-- C10 (amended): when an existing record is updated by a PUT whose body
holds an `id` key with a value different from the route id, the stored
record's `id` becomes the body's value, the updated record is no longer
returned by a lookup of its former id, and if another record already carries
the new id the store now holds two records with that id. -/
theorem c10_put_id_replacement (ps : List JObj) (id : String) (body : JObj) (w : Bool)
    (i : Nat) (v : JValue)
    (hi : ps.findIdx? (matchesId id) = some i)
    (hbody : lookupField body "id" = some v)
    (hne : v ≠ JValue.str id) :
    ((putPortfolio ps id body w).1 = ps.set i (mergeObj (ps.getD i []) body))
    ∧ lookupField (mergeObj (ps.getD i []) body) "id" = some v
    ∧ (∀ q, getById ((putPortfolio ps id body w).1) id = some q →
        q ≠ mergeObj (ps.getD i []) body)
    ∧ (∀ s j, v = JValue.str s → j ≠ i → j < ps.length →
        matchesId s (ps.getD j []) = true →
        matchesId s (((putPortfolio ps id body w).1).getD i []) = true
        ∧ matchesId s (((putPortfolio ps id body w).1).getD j []) = true) := by
  have hlen : i < ps.length := findIdx?_lt_length hi
  have hstate : (putPortfolio ps id body w).1
      = ps.set i (mergeObj (ps.getD i []) body) := by
    simp [putPortfolio, hi]
  have hmerge : lookupField (mergeObj (ps.getD i []) body) "id" = some v :=
    lookupField_mergeObj_present _ hbody
  refine ⟨hstate, hmerge, ?_, ?_⟩
  · intro q hq hcontra
    unfold getById at hq
    have hmq : matchesId id q = true := List.find?_some hq
    rw [hcontra] at hmq
    unfold matchesId at hmq
    rw [hmerge] at hmq
    cases v with
    | str s =>
      have hs : (s == id) = true := hmq
      have hs2 : s = id := by simpa using hs
      exact hne (by rw [hs2])
    | null => exact Bool.noConfusion hmq
    | bool b => exact Bool.noConfusion hmq
    | num n => exact Bool.noConfusion hmq
    | arr es => exact Bool.noConfusion hmq
    | obj fs => exact Bool.noConfusion hmq
  · intro s j hv hji hjlen hmatch
    subst hv
    constructor
    · rw [hstate, getD_set_self _ _ hlen]
      unfold matchesId
      rw [hmerge]
      simp
    · rw [hstate, getD_set_ne _ _ (Ne.symm hji)]
      exact hmatch

theorem c10_witness :
    matchesId "b" (((putPortfolio
        [[("id", JValue.str "a")], [("id", JValue.str "b"), ("x", JValue.num 1)]]
        "a" [("id", JValue.str "b")] true).1).getD 0 []) = true
    ∧ matchesId "b" (((putPortfolio
        [[("id", JValue.str "a")], [("id", JValue.str "b"), ("x", JValue.num 1)]]
        "a" [("id", JValue.str "b")] true).1).getD 1 []) = true := by
  have h := c10_put_id_replacement
    [[("id", JValue.str "a")], [("id", JValue.str "b"), ("x", JValue.num 1)]]
    "a" [("id", JValue.str "b")] true 0 (JValue.str "b") rfl rfl
    (by intro hc; injection hc with hc2; exact absurd hc2 (by decide))
  exact h.2.2.2 "b" 1 rfl (by decide) (by decide) rfl

/-! ## Validation of the embedding on concrete values

Spot checks of the `Date`/`toISOString` embedding (epoch, day boundaries, a
leap day, a negative timestamp, the largest representable date) and of the
end-to-end scenario of spec §8. -/

example : unixToDayString 0 = "1970-01-01" := rfl

example : unixToDayString 86399 = "1970-01-01" := rfl

example : unixToDayString 86400 = "1970-01-02" := rfl

example : unixToDayString 951782400 = "2000-02-29" := rfl

example : unixToDayString 1700000000 = "2023-11-14" := rfl

example : unixToDayString (-1) = "1969-12-31" := rfl

example : unixToDayString 8640000000000 = "+275760-09-13" := rfl

example :
    (postPortfolios [] [("id", JValue.str "abc"), ("coins", JValue.arr [JValue.str "BTC"])]
      true).2
    = ⟨201, JValue.obj [("id", JValue.str "abc"), ("coins", JValue.arr [JValue.str "BTC"])]⟩ :=
  rfl

example :
    getPortfolioById ((postPortfolios []
        [("id", JValue.str "abc"), ("coins", JValue.arr [JValue.str "BTC"])] true).1) "abc"
    = ⟨200, JValue.obj [("id", JValue.str "abc"), ("coins", JValue.arr [JValue.str "BTC"])]⟩ :=
  rfl

example :
    (patchPortfolio [[("id", JValue.str "abc"), ("coins", JValue.arr [JValue.str "BTC"])]]
      "abc" [("values", JValue.arr [JValue.num 100])] true).1
    = [[("id", JValue.str "abc"), ("coins", JValue.arr [JValue.str "BTC"]),
        ("values", JValue.arr [JValue.num 100])]] := rfl

example :
    (deletePortfolio [[("id", JValue.str "abc"), ("coins", JValue.arr [JValue.str "BTC"])]]
      "abc" true).2.status = 200 := rfl

example :
    getPortfolioById ((deletePortfolio
      [[("id", JValue.str "abc"), ("coins", JValue.arr [JValue.str "BTC"])]]
      "abc" true).1) "abc" = ⟨404, errBody "Portfolio not found"⟩ := rfl

example :
    postPredictions [("historical_data", JValue.str "not-an-array")]
      (fun _ => Except.ok (JValue.arr []))
    = ⟨400, errBody "Invalid or missing historical_data"⟩ := rfl

/-! Spot checks of the `ToNumber` coercion in `item.time * 1000`: `null` and
booleans coerce, numeric strings (decimal, fraction/exponent, hex, padded,
empty) parse, arrays coerce through their joined string; `undefined`,
objects, non-numeric strings, multi-element arrays and `Infinity` give `NaN`
and hence the thrown-error path. -/

example : toHistPoint (JValue.obj [("time", JValue.null)])
    = some (HistPoint.mk "1970-01-01" none) := rfl

example : toHistPoint (JValue.obj [("time", JValue.bool true)])
    = some (HistPoint.mk "1970-01-01" none) := rfl

example : toHistPoint (JValue.obj [("time", JValue.str "1700000000")])
    = some (HistPoint.mk "2023-11-14" none) := rfl

example : toHistPoint (JValue.obj [("time", JValue.str " 1.7e9 ")])
    = some (HistPoint.mk "2023-11-14" none) := rfl

example : toHistPoint (JValue.obj [("time", JValue.str "")])
    = some (HistPoint.mk "1970-01-01" none) := rfl

example : toHistPoint (JValue.obj [("time", JValue.str "0x10")])
    = some (HistPoint.mk "1970-01-01" none) := rfl

example : toHistPoint (JValue.obj [("time", JValue.str "-0.5")])
    = some (HistPoint.mk "1969-12-31" none) := rfl

example : toHistPoint (JValue.obj [("time", JValue.arr [JValue.num 1700000000])])
    = some (HistPoint.mk "2023-11-14" none) := rfl

example : toHistPoint (JValue.obj [("time", JValue.arr [])])
    = some (HistPoint.mk "1970-01-01" none) := rfl

example : toHistPoint (JValue.obj [("time", JValue.str "abc")]) = none := rfl

example : toHistPoint (JValue.obj [("time", JValue.str "Infinity")]) = none := rfl

example : toHistPoint (JValue.obj [("time", JValue.arr [JValue.num 1, JValue.num 2])])
    = none := rfl

example : toHistPoint (JValue.obj [("time", JValue.obj [])]) = none := rfl

example : toHistPoint (JValue.obj [("close", JValue.num 1)]) = none := rfl

example : toHistPoint (JValue.str "x") = none := rfl

end CryptoHub
